import Mathlib

/-!
Verification of the AnalyzeAI browser client core: the session /
authentication state machine (AuthContext.js) and the single-flight
generation request controller (HomePage in the home components, together
with the generateDocument service).  All definitions are shallow
embeddings of the JavaScript source; JS truthiness on strings is modelled
explicitly (the empty string is falsy), absent object keys are modelled
as Option.none, and thrown exceptions as Except.error.
-/

namespace AnalyzeAI

/-- JS `x || d` where `x` is a possibly-absent string value: both an absent
key (undefined) and the empty string are falsy and select the default. -/
def jsOrStr : Option String → String → String
  | some s, d => if s = "" then d else s
  | none, d => d

/-- JS `s || d` for a string `s` that is always present: the empty string is
falsy and selects the default. -/
def strOr (s d : String) : String :=
  if s = "" then d else s

/-! ## Auth data model (AuthContext.js) -/

/-- A backend auth payload `\x7b name, email, id?, provider? \x7d` as returned by
the OAuth callback exchange or the status probe.  `id` and `provider` may be
absent (`none`). -/
structure RawUser where
  name : String
  email : String
  id : Option String := none
  provider : Option String := none
deriving Repr, DecidableEq

/-- The normalized in-memory user record built by `login` and by the success
branch of `checkAuthStatus`: all four fields are plain strings. -/
structure Identity where
  name : String
  email : String
  id : String
  provider : String
deriving Repr, DecidableEq

/-- The normalization both `login` and the `checkAuthStatus` success branch
perform: `id: userData.id || userData.email`,
`provider: userData.provider || 'oauth'`. -/
def normalizeUser (d : RawUser) : Identity :=
  { name := d.name
  , email := d.email
  , id := jsOrStr d.id d.email
  , provider := jsOrStr d.provider "oauth" }

/-- Auth controller state: the in-memory `user`, the `localStorage`
entry under the key `user` (held here in parsed form: within the app it is
written only by this controller, always as serialized full records), and the
`loading` flag. -/
structure AuthState where
  user : Option Identity
  storedUser : Option Identity
  loading : Bool
deriving Repr, DecidableEq

/-- Initial auth state: `useState(null)` for the user, `useState(true)` for
loading, and an empty storage slot on a first-ever run. -/
def authInit : AuthState :=
  { user := none, storedUser := none, loading := true }

/-- `isAuthenticated: !!user`. -/
def isAuthenticated (s : AuthState) : Bool :=
  s.user.isSome

/-- `login(userData)`: normalizes, sets the in-memory user and persists the
same record to the storage slot. -/
def login (s : AuthState) (d : RawUser) : AuthState :=
  let u := normalizeUser d
  { s with user := some u, storedUser := some u }

/-- `logout()`: a best-effort network call (its failure is ignored), then the
in-memory user and the storage slot are cleared unconditionally. -/
def logout (s : AuthState) : AuthState :=
  { s with user := none, storedUser := none }

/-- Outcome of the status probe fetch as seen by `checkAuthStatus`. -/
inductive StatusResp where
  | ok (d : RawUser)
  | unauthorized
  | otherHttpError (status : Nat)
  | networkError
deriving Repr, DecidableEq

/-- `checkAuthStatus`: on `response.ok` with truthy `name` and `email` the
user is set and persisted (the inlined normalization is the same computation
as `login`); on 401 both the in-memory user and the storage slot are cleared;
any other HTTP status or a network error changes nothing.  The `finally`
clause sets `loading` to false in every case. -/
def checkAuthStatus (s : AuthState) (r : StatusResp) : AuthState :=
  let s' :=
    match r with
    | .ok d => if d.name ≠ "" ∧ d.email ≠ "" then login s d else s
    | .unauthorized => { s with user := none, storedUser := none }
    | .otherHttpError _ => s
    | .networkError => s
  { s' with loading := false }

/-! ## Browser URL model and the OAuth callback (AuthContext.js) -/

/-- The visible URL: the pathname plus the query parameters relevant to the
callback (`code`, `state`) and the rest of the query string. -/
structure UrlState where
  pathname : String
  codeParam : Option String
  stateParam : Option String
  otherParams : List (String × String)
deriving Repr, DecidableEq

/-- Browser-level state: the auth controller state, the visible URL, and a
counter of page loads (navigations / reloads). -/
structure Browser where
  auth : AuthState
  url : UrlState
  reloads : Nat
deriving Repr, DecidableEq

/-- Outcome of the callback exchange POST. -/
inductive CallbackResp where
  | ok (d : RawUser)
  | httpError (status : Nat)
  | networkError
deriving Repr, DecidableEq

/-- `window.history.replaceState(\x7b\x7d, document.title,
window.location.pathname)`: the visible URL becomes the bare pathname (the
whole query string is dropped) and no navigation occurs. -/
def replaceStateToPathname (u : UrlState) : UrlState :=
  { u with codeParam := none, stateParam := none, otherParams := [] }

/-- `checkOAuthCallback`: only runs the exchange when a truthy `code` query
parameter is present; on an OK response whose body has truthy `name` and
`email` it runs `login` and strips the query string via `replaceState`;
in every other case (no code, falsy code, non-OK response, body without
name/email, network error) nothing changes. -/
def checkOAuthCallback (b : Browser) (resp : CallbackResp) : Browser :=
  match b.url.codeParam with
  | none => b
  | some c =>
    if c = "" then b
    else
      match resp with
      | .ok d =>
        if d.name ≠ "" ∧ d.email ≠ "" then
          { b with auth := login b.auth d, url := replaceStateToPathname b.url }
        else b
      | .httpError _ => b
      | .networkError => b

/-- The synchronous hydration step of the mount effect: when the storage slot
holds a value the in-memory user is set from it, otherwise nothing happens.
(The raw-string / parse-failure behaviour of this step is modelled separately
below by `loadStoredUser`.) -/
def hydrateAuth (s : AuthState) : AuthState :=
  match s.storedUser with
  | some u => { s with user := some u }
  | none => s

/-- The auth-relevant events the application can fire: the mount-effect
hydration, a settled callback exchange, a settled status probe, and the
logout action from the header menu.  (`LoginDialog` only performs a full-page
redirect and never calls `login` with data.) -/
inductive AuthEvent where
  | hydrateEv
  | callbackEv (resp : CallbackResp)
  | probeEv (resp : StatusResp)
  | logoutEv
deriving Repr, DecidableEq

/-- One step of the browser-level auth system. -/
def authStep (b : Browser) : AuthEvent → Browser
  | .hydrateEv => { b with auth := hydrateAuth b.auth }
  | .callbackEv r => checkOAuthCallback b r
  | .probeEv r => { b with auth := checkAuthStatus b.auth r }
  | .logoutEv => { b with auth := logout b.auth }

/-- Browser states reachable from a fresh session (empty storage slot, no
user in memory) under any sequence of events, any starting URL, any number
of reloads. -/
inductive Reachable : Browser → Prop where
  | init (u : UrlState) (n : Nat) :
      Reachable { auth := authInit, url := u, reloads := n }
  | step {b : Browser} (e : AuthEvent) :
      Reachable b → Reachable (authStep b e)

/-! ## JSON values and parsing (for the raw hydration step)

`JSON.parse` is modelled by a recursive-descent parser for a JSON subset
(null, booleans, integer numbers, strings without escape handling, arrays,
objects).  It is used to model the success/failure behaviour of parsing the
raw storage slot at startup. -/

/-- The left-brace character (written via its code point). -/
def lbraceChar : Char := Char.ofNat 123

/-- The right-brace character (written via its code point). -/
def rbraceChar : Char := Char.ofNat 125

/-- A parsed JSON value. -/
inductive Json where
  | null
  | bool (b : Bool)
  | num (n : Int)
  | str (s : String)
  | arr (elems : List Json)
  | obj (fields : List (String × Json))

/-- JSON whitespace. -/
def isWsChar (c : Char) : Bool :=
  c = ' ' ∨ c = '\n' ∨ c = '\t' ∨ c = '\r'

/-- Drop leading whitespace. -/
def skipWs : List Char → List Char
  | [] => []
  | c :: cs => if isWsChar c then skipWs cs else c :: cs

/-- Read a string-literal body up to the closing quote (no escapes in this
subset). -/
def takeStringBody : List Char → Option (List Char × List Char)
  | [] => none
  | c :: cs =>
    if c = '"' then some ([], cs)
    else
      match takeStringBody cs with
      | some (s, rest) => some (c :: s, rest)
      | none => none

/-- Read a maximal run of decimal digits. -/
def takeDigits : List Char → List Char × List Char
  | [] => ([], [])
  | c :: cs =>
    if c.isDigit then
      let (ds, rest) := takeDigits cs
      (c :: ds, rest)
    else ([], c :: cs)

/-- Decimal digits to a natural number. -/
def digitsToNat (ds : List Char) : Nat :=
  ds.foldl (fun acc c => acc * 10 + (c.toNat - 48)) 0

/-- Match an expected literal tail, returning the remaining input. -/
def dropLit : List Char → List Char → Option (List Char)
  | [], cs => some cs
  | _ :: _, [] => none
  | l :: ls, c :: cs => if c = l then dropLit ls cs else none

mutual

/-- Parse one JSON value. -/
def parseVal : Nat → List Char → Except String (Json × List Char)
  | 0, _ => .error "json too deep"
  | fuel + 1, cs =>
    match skipWs cs with
    | [] => .error "unexpected end of json"
    | c :: rest =>
      if c = 'n' then
        match dropLit ['u', 'l', 'l'] rest with
        | some rest' => .ok (.null, rest')
        | none => .error "bad json literal"
      else if c = 't' then
        match dropLit ['r', 'u', 'e'] rest with
        | some rest' => .ok (.bool true, rest')
        | none => .error "bad json literal"
      else if c = 'f' then
        match dropLit ['a', 'l', 's', 'e'] rest with
        | some rest' => .ok (.bool false, rest')
        | none => .error "bad json literal"
      else if c = '"' then
        match takeStringBody rest with
        | some (s, rest') => .ok (.str (String.mk s), rest')
        | none => .error "unterminated json string"
      else if c = '-' then
        match takeDigits rest with
        | ([], _) => .error "bad json number"
        | (ds, rest') => .ok (.num (-(digitsToNat ds : Int)), rest')
      else if c.isDigit then
        match takeDigits (c :: rest) with
        | (ds, rest') => .ok (.num (digitsToNat ds : Int), rest')
      else if c = '[' then
        match skipWs rest with
        | ']' :: rest' => .ok (.arr [], rest')
        | rest' => parseItems fuel rest' []
      else if c = lbraceChar then
        match skipWs rest with
        | c' :: rest' =>
          if c' = rbraceChar then .ok (.obj [], rest')
          else parseFields fuel (c' :: rest') []
        | [] => .error "unterminated json object"
      else .error "unexpected json character"

/-- Parse the items of a non-empty array (after the opening bracket). -/
def parseItems : Nat → List Char → List Json → Except String (Json × List Char)
  | 0, _, _ => .error "json too deep"
  | fuel + 1, cs, acc =>
    match parseVal fuel cs with
    | .error e => .error e
    | .ok (v, rest) =>
      match skipWs rest with
      | ',' :: rest' => parseItems fuel rest' (v :: acc)
      | ']' :: rest' => .ok (.arr (v :: acc).reverse, rest')
      | _ => .error "bad json array"

/-- Parse the fields of a non-empty object (after the opening brace). -/
def parseFields : Nat → List Char → List (String × Json) →
    Except String (Json × List Char)
  | 0, _, _ => .error "json too deep"
  | fuel + 1, cs, acc =>
    match skipWs cs with
    | '"' :: r =>
      match takeStringBody r with
      | some (k, r1) =>
        match skipWs r1 with
        | ':' :: r2 =>
          match parseVal fuel r2 with
          | .error e => .error e
          | .ok (v, r3) =>
            match skipWs r3 with
            | ',' :: r4 => parseFields fuel r4 ((String.mk k, v) :: acc)
            | c :: r4 =>
              if c = rbraceChar then
                .ok (.obj ((String.mk k, v) :: acc).reverse, r4)
              else .error "bad json object"
            | [] => .error "unterminated json object"
        | _ => .error "expected colon in json object"
      | none => .error "unterminated json string"
    | _ => .error "expected json object key"

end

/-- `JSON.parse` over a whole string: one value, then only trailing
whitespace. -/
def parseJson (s : String) : Except String Json :=
  match parseVal (s.length + 1) s.data with
  | .error e => .error e
  | .ok (v, rest) =>
    match skipWs rest with
    | [] => .ok v
    | _ => .error "trailing json characters"

/-- The raw startup load of the storage slot:
`const storedUser = localStorage.getItem('user');
if (storedUser) \x7b setUser(JSON.parse(storedUser)); \x7d`.
`getItem` yields null (`none`) or the raw string; a falsy value (null or the
empty string) skips hydration; otherwise `JSON.parse` runs with no
try/catch around it, so a parse failure propagates out of the effect
(`Except.error`), and a parse success installs the raw parsed value. -/
def loadStoredUser (slot : Option String) : Except String (Option Json) :=
  match slot with
  | none => .ok none
  | some s =>
    if s = "" then .ok none
    else
      match parseJson s with
      | .ok v => .ok (some v)
      | .error e => .error e

/-- All four Identity fields are non-empty. -/
def FullyPopulated (u : Identity) : Prop :=
  u.name ≠ "" ∧ u.email ≠ "" ∧ u.id ≠ "" ∧ u.provider ≠ ""

instance : DecidablePred FullyPopulated := fun u => by
  unfold FullyPopulated; infer_instance

/-- Every identity exposed in memory or persisted to the storage slot is
fully populated. -/
def AuthInv (s : AuthState) : Prop :=
  (∀ u, s.user = some u → FullyPopulated u) ∧
  (∀ u, s.storedUser = some u → FullyPopulated u)

/-! ## Generation service (services/api.js, the fetch-based variant) -/

/-- A generation request as passed to `handleDownload` /
`generateDocument`. -/
structure GenRequest where
  sqlQuery : String
  businessDomain : String
deriving Repr, DecidableEq

/-- The parsed JSON body of a generation response.  `none` models an absent
key (undefined). -/
structure GenBody where
  documentId : Option String := none
  fileName : Option String := none
  fileSize : Option Nat := none
  generatedAt : Option String := none
  downloadUrl : Option String := none
  message : Option String := none
deriving Repr, DecidableEq

/-- Outcome of the generation fetch.  On a non-OK response the body may fail
to parse (`none`): `response.json().catch(() => null)`.  A network failure
rejects with the error message of the thrown fetch error. -/
inductive GenResponse where
  | ok (body : GenBody)
  | httpError (status : Nat) (body : Option GenBody)
  | networkError (msg : String)
deriving Repr, DecidableEq

/-- The transformed `response.data` object built by `generateDocument`.
After the transform every defaulted field is a plain string. -/
structure GenData where
  documentId : String
  fileName : String
  fileSize : Option Nat
  generatedAt : String
  downloadUrl : Option String
  message : String
deriving Repr, DecidableEq

/-- The response transform of `generateDocument`.  In the source the object
literal computes `data.field || default` for each defaulted field and then
spreads `...data` last, so a key the backend provides always wins (even a
falsy value such as the empty string), and the computed default survives
exactly when the key is absent — which is precisely `Option.getD`.
`nowMs` stands for `Date.now()` and `nowIso` for
`new Date().toISOString()`; `toISOString().slice(0, 10)` is
`String.take nowIso 10`. -/
def transformGenData (businessDomain : String) (nowMs : Nat) (nowIso : String)
    (b : GenBody) : GenData :=
  { documentId := b.documentId.getD ("DOC-" ++ toString nowMs)
  , fileName :=
      b.fileName.getD (businessDomain ++ "_analysis_" ++ nowIso.take 10 ++ ".pdf")
  , fileSize := b.fileSize
  , generatedAt := b.generatedAt.getD nowIso
  , downloadUrl := b.downloadUrl
  , message := b.message.getD "Document generated successfully" }

/-- `generateDocument`: one POST to the generation endpoint.  A non-OK
response throws `new Error(errorData?.message || "Server error: " + status)`
(the optional chaining plus `||` is `jsOrStr` over the optional message of an
optionally-parsed body); a network failure is re-thrown unchanged; an OK
response yields the transformed data (with `success: true`). -/
def generateDocument (req : GenRequest) (nowMs : Nat) (nowIso : String)
    (resp : GenResponse) : Except String GenData :=
  match resp with
  | .ok b => .ok (transformGenData req.businessDomain nowMs nowIso b)
  | .httpError status b =>
      .error (jsOrStr (b.bind GenBody.message) ("Server error: " ++ toString status))
  | .networkError m => .error m

/-! ## Home page controller (HomePage in the home components) -/

/-- `documentInfo = \x7b sqlQuery, businessDomain, ...response.data \x7d`:
the cached record that backs re-download. -/
structure DocumentInfo where
  sqlQuery : String
  businessDomain : String
  documentId : String
  fileName : String
  fileSize : Option Nat
  generatedAt : String
  downloadUrl : Option String
  message : String
deriving Repr, DecidableEq

/-- Merge the request fields with the transformed response data. -/
def mkDocumentInfo (req : GenRequest) (d : GenData) : DocumentInfo :=
  { sqlQuery := req.sqlQuery
  , businessDomain := req.businessDomain
  , documentId := d.documentId
  , fileName := d.fileName
  , fileSize := d.fileSize
  , generatedAt := d.generatedAt
  , downloadUrl := d.downloadUrl
  , message := d.message }

/-- The `HomePage` component state: the six `useState` hooks. -/
structure HomeState where
  sqlQuery : String
  businessDomain : String
  isLoading : Bool
  showSuccess : Bool
  error : Option String
  lastDocument : Option DocumentInfo
deriving Repr, DecidableEq

/-- Initial home state. -/
def homeInit : HomeState :=
  { sqlQuery := "", businessDomain := "", isLoading := false
  , showSuccess := false, error := none, lastDocument := none }

/-- A synthetic-file delivery handed to the browser save mechanism by
`downloadFile` (helpers.js): content, file name, MIME type. -/
structure Delivery where
  content : String
  fileName : String
  contentType : String
deriving Repr, DecidableEq

/-- `generateDocumentFilename` (helpers.js): the domain plus the ISO
timestamp with every colon and dot replaced by a dash, with a `.doc`
extension. -/
def generateDocumentFilename (domain : String) (nowIso : String) : String :=
  domain ++ "_analysis_" ++
    (nowIso.map fun c => if c = ':' ∨ c = '.' then '-' else c) ++ ".doc"

/-- The mock report content template of `performDownload`. -/
def mockContent (info : DocumentInfo) (nowIso : String) : String :=
  "\nAnalyzeAI ANALYSIS REPORT\n=====================\n\nBusiness Domain: "
    ++ info.businessDomain
    ++ "\nGenerated: " ++ nowIso
    ++ "\nDocument ID: " ++ info.documentId
    ++ "\n\nSQL Query Analysis:\n" ++ info.sqlQuery
    ++ "\n\n[This is a mock document. In production, this would contain the actual analysis.]\n    "

/-- `performDownload(documentInfo)`: builds the mock content from the cached
record and delivers it under `documentInfo.fileName ||
generateDocumentFilename(documentInfo.businessDomain)` as text/plain.
No network call is involved (the content is synthesized in memory). -/
def performDownload (info : DocumentInfo) (nowIso : String) : Delivery :=
  { content := mockContent info nowIso
  , fileName := strOr info.fileName (generateDocumentFilename info.businessDomain nowIso)
  , contentType := "text/plain" }

/-- The observable outcome of one controller action: the final component
state, the number of generation network calls issued, and the file
deliveries triggered. -/
structure SubmitOutcome where
  state : HomeState
  genCalls : Nat
  deliveries : List Delivery
deriving Repr, DecidableEq

/-- `handleDownload(\x7b sqlQuery, businessDomain \x7d)`: sets
`isLoading = true` and clears the error, then unconditionally awaits one
`generateDocument` call.  On success it caches the document info, triggers
`performDownload`, and shows the success state; on a thrown error it sets
`error = err.message || "An error occurred while generating the document"`.
The `finally` clause resets `isLoading`.  Note the function inspects neither
`isLoading` nor the validity of its input before issuing the call. -/
def handleDownload (s : HomeState) (req : GenRequest) (nowMs : Nat)
    (nowIso : String) (resp : GenResponse) : SubmitOutcome :=
  let s1 : HomeState := { s with isLoading := true, error := none }
  match generateDocument req nowMs nowIso resp with
  | .ok data =>
      let info := mkDocumentInfo req data
      { state :=
          { s1 with
            lastDocument := some info
          , showSuccess := true
          , isLoading := false }
      , genCalls := 1
      , deliveries := [performDownload info nowIso] }
  | .error msg =>
      { state :=
          { s1 with
            error := some (strOr msg "An error occurred while generating the document")
          , isLoading := false }
      , genCalls := 1
      , deliveries := [] }

/-- `handleRedownload`: replays `performDownload` on the cached document when
one is present; no state update and no network call either way. -/
def handleRedownload (s : HomeState) (nowIso : String) : SubmitOutcome :=
  match s.lastDocument with
  | some d => { state := s, genCalls := 0, deliveries := [performDownload d nowIso] }
  | none => { state := s, genCalls := 0, deliveries := [] }

/-- `handleNewQuery`: resets the form fields, the success flag, the cached
document and the error. -/
def handleNewQuery (s : HomeState) : HomeState :=
  { s with
    sqlQuery := ""
  , businessDomain := ""
  , showSuccess := false
  , lastDocument := none
  , error := none }

/-- What the home page renders. -/
inductive View where
  | loadingView
  | successView
  | formView
deriving Repr, DecidableEq

/-- The render branch of `HomePage`:
`isLoading ? LoadingState : showSuccess ? SuccessState : QueryForm` — while a
submission is in flight only the loading view is mounted, so no submit
affordance exists. -/
def render (s : HomeState) : View :=
  if s.isLoading then .loadingView
  else if s.showSuccess then .successView
  else .formView

/-- JS `String.prototype.trim()`: strip leading and trailing whitespace
(the common whitespace characters of this model). -/
def jsTrim (s : String) : String :=
  String.mk (((s.data.dropWhile isWsChar).reverse.dropWhile isWsChar).reverse)

/-- `QueryForm`: `isQueryEmpty = !sqlQuery || sqlQuery.trim() === ''`. -/
def isQueryEmpty (q : String) : Bool :=
  q = "" ∨ jsTrim q = ""

/-- `QueryForm`: `isFormValid = !isQueryEmpty && businessDomain`. -/
def isFormValid (q d : String) : Bool :=
  !isQueryEmpty q && !(d = "")

/-- `QueryForm.handleDownload`: invokes `onDownload(\x7b sqlQuery,
businessDomain \x7d)` only when the form is valid; `some` is the invocation
with its argument, `none` means `onDownload` is not called at all. -/
def queryFormSubmit (q d : String) : Option GenRequest :=
  if isFormValid q d then some { sqlQuery := q, businessDomain := d } else none

/-- The ten enumerated business-domain codes offered by the select. -/
def businessDomains : List String :=
  ["finance", "healthcare", "retail", "technology", "manufacturing",
   "education", "logistics", "marketing", "hr", "sales"]

/-- Iterate `handleRedownload` `n` times, accumulating the network-call count
and the deliveries. -/
def redownloadN (s : HomeState) (nowIso : String) :
    Nat → HomeState × Nat × List Delivery
  | 0 => (s, 0, [])
  | n + 1 =>
    let o := handleRedownload s nowIso
    let (s', c, ds) := redownloadN o.state nowIso n
    (s', o.genCalls + c, o.deliveries ++ ds)

/-- A concrete state with a submission in flight (`isLoading = true`), used
to probe the single-flight behaviour. -/
def submittingState : HomeState :=
  { sqlQuery := "SELECT 1", businessDomain := "finance", isLoading := true
  , showSuccess := false, error := none, lastDocument := none }

/-- A sample ISO timestamp used for concrete evaluations. -/
def isoSample : String := "2024-01-01T00:00:00.000Z"

/-- A concrete browser state returning from the identity provider with
`code`/`state` query parameters present and no session yet. -/
def callbackBrowser : Browser :=
  { auth := authInit
  , url := { pathname := "/", codeParam := some "abc"
           , stateParam := some "st1", otherParams := [] }
  , reloads := 0 }

/-! ## Helper lemmas -/

/-- Every `handleDownload` invocation issues exactly one generation call,
whatever the state, input and response: the function never inspects its
state before awaiting `generateDocument`. -/
theorem handleDownload_genCalls (s : HomeState) (req : GenRequest)
    (nowMs : Nat) (nowIso : String) (resp : GenResponse) :
    (handleDownload s req nowMs nowIso resp).genCalls = 1 := by
  cases h : generateDocument req nowMs nowIso resp <;> simp [handleDownload, h]

/-- Normalization yields a fully populated identity whenever `name` and
`email` are non-empty: `id` falls back to `email` and `provider` to
a fixed non-empty literal. -/
theorem normalizeUser_fullyPopulated (d : RawUser)
    (hn : d.name ≠ "") (he : d.email ≠ "") :
    FullyPopulated (normalizeUser d) := by
  refine ⟨hn, he, ?_, ?_⟩ <;> simp only [normalizeUser, jsOrStr]
  · cases d.id with
    | none => exact he
    | some x => by_cases hx : x = "" <;> simp [hx, he]
  · cases d.provider with
    | none => simp
    | some p => by_cases hp : p = "" <;> simp [hp]

/-- The server-error fallback message is never the empty string. -/
theorem serverError_ne_empty (x : String) : "Server error: " ++ x ≠ "" := by
  intro h
  have hlen := congrArg String.length h
  simp [String.length_append] at hlen
  exact absurd hlen.1 (by decide)

/-! ## Claims -/

/-- Claim C1, counterexample: starting from `submittingState` (a submission
already in flight), a further direct `handleDownload` call is not rejected:
it issues another generation network call (`genCalls = 1` for this second
invocation) and has side effects (the resulting state differs from the
starting one), contradicting the single-flight claim as stated. -/
theorem submit_while_submitting_not_rejected :
    (handleDownload submittingState (GenRequest.mk "SELECT 1" "finance") 5
        isoSample (.ok {})).genCalls = 1 ∧
    (handleDownload submittingState (GenRequest.mk "SELECT 1" "finance") 5
        isoSample (.ok {})).state ≠ submittingState := by
  constructor
  · rfl
  · decide

/-- Claim C1, amended: while a submission is in flight the Presentation
Shell renders only the loading view (the submit form is not mounted, so no
second submit can be issued through the UI); the controller itself, however,
does not reject an overlapping call — invoked directly while `isLoading` is
true it issues another generation network call. -/
theorem single_flight_shell_only :
    (∀ s : HomeState, s.isLoading = true → render s = View.loadingView) ∧
    (∀ (s : HomeState) (req : GenRequest) (nowMs : Nat) (nowIso : String)
        (resp : GenResponse), s.isLoading = true →
        (handleDownload s req nowMs nowIso resp).genCalls = 1) := by
  constructor
  · intro s h
    simp [render, h]
  · intro s req nowMs nowIso resp _
    exact handleDownload_genCalls s req nowMs nowIso resp

/-- Claim C1, witness for the amended theorem at concrete inputs. -/
theorem single_flight_shell_only_witness :
    render submittingState = View.loadingView ∧
    (handleDownload submittingState (GenRequest.mk "SELECT 2" "retail") 7
        isoSample (.networkError "down")).genCalls = 1 :=
  ⟨single_flight_shell_only.1 submittingState rfl,
   single_flight_shell_only.2 submittingState (GenRequest.mk "SELECT 2" "retail")
     7 isoSample (.networkError "down") rfl⟩

/-- Claim C2, counterexample: invoking the controller directly (bypassing
the form guard) with an empty `sqlQuery` from the idle state is not rejected:
it issues a generation network call and transitions out of idle (to success
on an OK response), contradicting the claim as stated. -/
theorem invalid_submit_direct_not_rejected :
    (handleDownload homeInit (GenRequest.mk "" "finance") 5 isoSample
        (.ok {})).genCalls = 1 ∧
    (handleDownload homeInit (GenRequest.mk "" "finance") 5 isoSample
        (.ok {})).state.showSuccess = true := by
  exact ⟨rfl, rfl⟩

/-- Claim C2, amended: validation is enforced only at the Presentation
Shell's form boundary.  `QueryForm` invokes the controller exactly when the
query is non-empty after trimming and a domain string is selected
(non-empty); membership of the domain in the ten enumerated codes is not
re-checked anywhere (the select only offers those codes), and the controller
itself performs no validation — called directly it always issues the
network call. -/
theorem validation_gate_form_only :
    (∀ q : String, isQueryEmpty q = decide (jsTrim q = "")) ∧
    (∀ q d : String, isQueryEmpty q = true ∨ d = "" →
        queryFormSubmit q d = none) ∧
    (∀ q d : String, isQueryEmpty q = false → d ≠ "" →
        queryFormSubmit q d = some (GenRequest.mk q d)) ∧
    (∀ (s : HomeState) (req : GenRequest) (nowMs : Nat) (nowIso : String)
        (resp : GenResponse),
        (handleDownload s req nowMs nowIso resp).genCalls = 1) := by
  refine ⟨?_, ?_, ?_, fun s req nowMs nowIso resp =>
    handleDownload_genCalls s req nowMs nowIso resp⟩
  · intro q
    by_cases h : q = ""
    · subst h; rfl
    · simp [isQueryEmpty, h]
  · intro q d h
    rcases h with h | h <;> simp [queryFormSubmit, isFormValid, h]
  · intro q d hq hd
    simp [queryFormSubmit, isFormValid, hq, hd]

/-- Claim C2, witness for the amended theorem at concrete inputs: the form
rejects an empty query and an empty domain, accepts a valid pair, and the
controller called directly with empty input still issues the call. -/
theorem validation_gate_form_only_witness :
    isQueryEmpty "  " = decide (jsTrim "  " = "") ∧
    queryFormSubmit "" "finance" = none ∧
    queryFormSubmit "SELECT 1" "" = none ∧
    queryFormSubmit "SELECT 1" "finance" =
      some (GenRequest.mk "SELECT 1" "finance") ∧
    (handleDownload homeInit (GenRequest.mk "" "") 3 isoSample
        (.networkError "")).genCalls = 1 :=
  ⟨validation_gate_form_only.1 "  ",
   validation_gate_form_only.2.1 "" "finance" (Or.inl (by decide)),
   validation_gate_form_only.2.1 "SELECT 1" "" (Or.inr rfl),
   validation_gate_form_only.2.2.1 "SELECT 1" "finance" (by decide) (by decide),
   validation_gate_form_only.2.2.2 homeInit (GenRequest.mk "" "") 3 isoSample
     (.networkError "")⟩

/-- Claim C4 (confirmed): whatever the prior auth state, a 401 from the
status probe leaves the controller unauthenticated with both the in-memory
identity and the storage slot cleared (and `loading` settled to false). -/
theorem probe_401_clears_identity (s : AuthState) :
    isAuthenticated (checkAuthStatus s .unauthorized) = false ∧
    (checkAuthStatus s .unauthorized).user = none ∧
    (checkAuthStatus s .unauthorized).storedUser = none ∧
    (checkAuthStatus s .unauthorized).loading = false :=
  ⟨rfl, rfl, rfl, rfl⟩

/-- Claim C3, counterexample: with malformed data in the storage slot the
startup load does not discard it and return absent — the parse failure
propagates (the hydration effect throws), contradicting the claim as
stated. -/
theorem hydration_malformed_throws :
    loadStoredUser (some "xyz") = Except.error "unexpected json character" :=
  rfl

/-- Claim C3, amended: the startup load returns absent when the slot is
absent or holds the (falsy) empty string, returns the raw parsed value when
the stored string parses as JSON, and on malformed data propagates the parse
failure (hydration throws) instead of discarding it — `JSON.parse` runs with
no try/catch around it. -/
theorem hydration_parse_failure_propagates :
    loadStoredUser none = Except.ok none ∧
    loadStoredUser (some "") = Except.ok none ∧
    (∀ (s : String) (v : Json), s ≠ "" → parseJson s = Except.ok v →
        loadStoredUser (some s) = Except.ok (some v)) ∧
    (∀ (s e : String), s ≠ "" → parseJson s = Except.error e →
        loadStoredUser (some s) = Except.error e) := by
  refine ⟨rfl, rfl, ?_, ?_⟩
  · intro s v hs hp
    simp [loadStoredUser, hs, hp]
  · intro s e hs hp
    simp [loadStoredUser, hs, hp]

/-- Claim C3, witness for the amended theorem: a well-formed stored value is
returned parsed, and a malformed one propagates its parse error. -/
theorem hydration_parse_failure_propagates_witness :
    loadStoredUser (some "null") = Except.ok (some Json.null) ∧
    loadStoredUser (some "nope") = Except.error "bad json literal" :=
  ⟨hydration_parse_failure_propagates.2.2.1 "null" Json.null (by decide) rfl,
   hydration_parse_failure_propagates.2.2.2 "nope" "bad json literal"
     (by decide) rfl⟩

/-- Claim C5 (confirmed): a failed generation submission (non-2xx or network
failure) puts the controller in the error state: the message is the backend
body's own non-empty `message` when present, the generic
`Server error: status` fallback when the body provides none, and the thrown
fetch error's message (or the component fallback) on a network failure; the
failing submit issues exactly one generation call (no automatic retry), and
a subsequent corrected submit from the resulting state is accepted and
reaches success. -/
theorem generation_failure_error_handling (s : HomeState) (req : GenRequest)
    (nowMs : Nat) (nowIso : String) (status : Nat) (b : GenBody) (m : String)
    (hb : b.message = some m) (hm : m ≠ "") :
    (handleDownload s req nowMs nowIso (.httpError status (some b))).state.error
        = some m ∧
    (handleDownload s req nowMs nowIso (.httpError status (some b))).genCalls = 1 ∧
    (handleDownload s req nowMs nowIso
        (.httpError status (some b))).state.isLoading = false ∧
    (∀ ob : Option GenBody, ob.bind GenBody.message = none →
        (handleDownload s req nowMs nowIso (.httpError status ob)).state.error
          = some ("Server error: " ++ toString status)) ∧
    (∀ me : String,
        (handleDownload s req nowMs nowIso (.networkError me)).state.error
          = some (strOr me "An error occurred while generating the document")) ∧
    (∀ (req2 : GenRequest) (nowMs2 : Nat) (nowIso2 : String) (b2 : GenBody),
        (handleDownload
            (handleDownload s req nowMs nowIso (.httpError status (some b))).state
            req2 nowMs2 nowIso2 (.ok b2)).state.showSuccess = true ∧
        (handleDownload
            (handleDownload s req nowMs nowIso (.httpError status (some b))).state
            req2 nowMs2 nowIso2 (.ok b2)).genCalls = 1) := by
  refine ⟨?_, ?_, ?_, ?_, ?_, ?_⟩
  · simp [handleDownload, generateDocument, hb, jsOrStr, strOr, hm]
  · exact handleDownload_genCalls ..
  · simp [handleDownload, generateDocument]
  · intro ob hob
    simp [handleDownload, generateDocument, hob, jsOrStr, strOr,
      serverError_ne_empty (toString status)]
  · intro me
    simp [handleDownload, generateDocument]
  · intro req2 nowMs2 nowIso2 b2
    exact ⟨by simp [handleDownload, generateDocument], handleDownload_genCalls ..⟩

/-- Claim C5, witness: the end-to-end scenario — a 500 response whose body is
`\x7b message: "upstream timeout" \x7d` yields the error message exactly
`upstream timeout`, with one call issued. -/
theorem generation_failure_error_handling_witness :
    (handleDownload homeInit (GenRequest.mk "SELECT 1" "finance") 5 isoSample
        (.httpError 500 (some { message := some "upstream timeout" }))).state.error
      = some "upstream timeout" ∧
    (handleDownload homeInit (GenRequest.mk "SELECT 1" "finance") 5 isoSample
        (.httpError 500 (some { message := some "upstream timeout" }))).genCalls
      = 1 :=
  ⟨(generation_failure_error_handling homeInit (GenRequest.mk "SELECT 1" "finance")
      5 isoSample 500 { message := some "upstream timeout" } "upstream timeout"
      rfl (by decide)).1,
   (generation_failure_error_handling homeInit (GenRequest.mk "SELECT 1" "finance")
      5 isoSample 500 { message := some "upstream timeout" } "upstream timeout"
      rfl (by decide)).2.1⟩

/-- Claim C6 (confirmed): on an HTTP-success response the produced result is
the transformed body, where `documentId` defaults to the time-based
`DOC-now` placeholder, `fileName` to the domain plus the current date, and
`generatedAt` to the current ISO timestamp exactly when the backend omits
those keys, while backend-provided values (the trailing `...data` spread)
always take precedence over the client-side defaults. -/
theorem generation_success_defaults (req : GenRequest) (nowMs : Nat)
    (nowIso : String) (b : GenBody) :
    generateDocument req nowMs nowIso (.ok b)
        = Except.ok (transformGenData req.businessDomain nowMs nowIso b) ∧
    (b.documentId = none →
        (transformGenData req.businessDomain nowMs nowIso b).documentId
          = "DOC-" ++ toString nowMs) ∧
    (∀ v, b.documentId = some v →
        (transformGenData req.businessDomain nowMs nowIso b).documentId = v) ∧
    (b.fileName = none →
        (transformGenData req.businessDomain nowMs nowIso b).fileName
          = req.businessDomain ++ "_analysis_" ++ nowIso.take 10 ++ ".pdf") ∧
    (∀ v, b.fileName = some v →
        (transformGenData req.businessDomain nowMs nowIso b).fileName = v) ∧
    (b.generatedAt = none →
        (transformGenData req.businessDomain nowMs nowIso b).generatedAt
          = nowIso) ∧
    (∀ v, b.generatedAt = some v →
        (transformGenData req.businessDomain nowMs nowIso b).generatedAt = v) := by
  refine ⟨rfl, ?_, ?_, ?_, ?_, ?_, ?_⟩ <;>
    first
      | (intro h; simp [transformGenData, h])
      | (intro v h; simp [transformGenData, h])

/-- Claim C6, witness: with an empty body every default applies; with a body
providing the fields the backend values win. -/
theorem generation_success_defaults_witness :
    (transformGenData "retail" 99 isoSample {}).documentId = "DOC-99" ∧
    (transformGenData "retail" 99 isoSample {}).fileName
      = "retail" ++ "_analysis_" ++ isoSample.take 10 ++ ".pdf" ∧
    (transformGenData "retail" 99 isoSample {}).generatedAt = isoSample ∧
    (transformGenData "retail" 99 isoSample
        { documentId := some "DOC-1" }).documentId = "DOC-1" :=
  ⟨(generation_success_defaults (GenRequest.mk "q" "retail") 99 isoSample {}).2.1 rfl,
   (generation_success_defaults (GenRequest.mk "q" "retail") 99 isoSample {}).2.2.2.1 rfl,
   (generation_success_defaults (GenRequest.mk "q" "retail") 99 isoSample {}).2.2.2.2.2.1 rfl,
   (generation_success_defaults (GenRequest.mk "q" "retail") 99 isoSample
      { documentId := some "DOC-1" }).2.2.1 "DOC-1" rfl⟩

/-- Claim C7 (confirmed): once a result is cached in the success state,
invoking redownload any number of times issues zero generation network
calls, leaves the controller state exactly as it was (still success, same
cached result), and every delivery is the one derived from the same cached
`DocumentInfo`. -/
theorem redownload_network_free (s : HomeState) (d : DocumentInfo)
    (nowIso : String) (n : Nat)
    (_hsucc : s.showSuccess = true) (hdoc : s.lastDocument = some d) :
    redownloadN s nowIso n
      = (s, 0, List.replicate n (performDownload d nowIso)) := by
  induction n with
  | zero => rfl
  | succ k ih =>
    simp [redownloadN, handleRedownload, hdoc, ih, List.replicate_succ]

/-- Claim C7, witness: three redownloads from a concrete success state with
a cached document issue zero calls and leave the state unchanged. -/
theorem redownload_network_free_witness :
    redownloadN
        { sqlQuery := "SELECT 1", businessDomain := "retail", isLoading := false
        , showSuccess := true, error := none
        , lastDocument := some
            { sqlQuery := "SELECT 1", businessDomain := "retail"
            , documentId := "DOC-1", fileName := "r.pdf", fileSize := none
            , generatedAt := isoSample, downloadUrl := none, message := "ok" } }
        isoSample 3
      = ({ sqlQuery := "SELECT 1", businessDomain := "retail", isLoading := false
         , showSuccess := true, error := none
         , lastDocument := some
             { sqlQuery := "SELECT 1", businessDomain := "retail"
             , documentId := "DOC-1", fileName := "r.pdf", fileSize := none
             , generatedAt := isoSample, downloadUrl := none, message := "ok" } }
        , 0
        , List.replicate 3 (performDownload
            { sqlQuery := "SELECT 1", businessDomain := "retail"
            , documentId := "DOC-1", fileName := "r.pdf", fileSize := none
            , generatedAt := isoSample, downloadUrl := none, message := "ok" }
            isoSample)) :=
  redownload_network_free _ _ isoSample 3 rfl rfl

/-- Claim C8, counterexample: an HTTP-2xx callback exchange whose body
lacks `name`/`email` runs no login and leaves the `code`/`state` parameters
in the visible URL — the claim as stated (login and URL cleanup after every
2xx exchange) fails on this input. -/
theorem callback_2xx_without_identity_fields :
    checkOAuthCallback callbackBrowser (.ok { name := "", email := "" })
      = callbackBrowser ∧
    (checkOAuthCallback callbackBrowser
        (.ok { name := "", email := "" })).auth.user = none ∧
    (checkOAuthCallback callbackBrowser
        (.ok { name := "", email := "" })).url.codeParam = some "abc" := by
  refine ⟨by decide, rfl, rfl⟩

/-- Claim C8, amended: after a successful callback exchange (HTTP 2xx)
whose response body carries non-empty `name` and `email`, the login
procedure runs on the response identity and the whole query string —
including `code` and `state` — is stripped from the visible URL via
`history.replaceState`, keeping the pathname and triggering no navigation
or reload; a 2xx response lacking those fields changes nothing. -/
theorem callback_success_login_and_url_strip (b : Browser) (c : String)
    (d : RawUser) (hc : b.url.codeParam = some c) (hne : c ≠ "")
    (hn : d.name ≠ "") (he : d.email ≠ "") :
    checkOAuthCallback b (.ok d)
      = { b with auth := login b.auth d, url := replaceStateToPathname b.url } ∧
    (checkOAuthCallback b (.ok d)).auth.user = some (normalizeUser d) ∧
    (checkOAuthCallback b (.ok d)).url.codeParam = none ∧
    (checkOAuthCallback b (.ok d)).url.stateParam = none ∧
    (checkOAuthCallback b (.ok d)).url.pathname = b.url.pathname ∧
    (checkOAuthCallback b (.ok d)).reloads = b.reloads := by
  have hmain :
      checkOAuthCallback b (.ok d)
        = { b with auth := login b.auth d, url := replaceStateToPathname b.url } := by
    simp [checkOAuthCallback, hc, hne, hn, he]
  refine ⟨hmain, ?_, ?_, ?_, ?_, ?_⟩ <;>
    simp [hmain, login, replaceStateToPathname]

/-- Claim C8, witness for the amended theorem at a concrete browser state
and response. -/
theorem callback_success_login_and_url_strip_witness :
    (checkOAuthCallback callbackBrowser
        (.ok { name := "Ada", email := "ada@ex.com" })).auth.user
      = some (normalizeUser { name := "Ada", email := "ada@ex.com" }) ∧
    (checkOAuthCallback callbackBrowser
        (.ok { name := "Ada", email := "ada@ex.com" })).url.codeParam = none ∧
    (checkOAuthCallback callbackBrowser
        (.ok { name := "Ada", email := "ada@ex.com" })).reloads
      = callbackBrowser.reloads :=
  ⟨(callback_success_login_and_url_strip callbackBrowser "abc"
      { name := "Ada", email := "ada@ex.com" } rfl (by decide) (by decide)
      (by decide)).2.1,
   (callback_success_login_and_url_strip callbackBrowser "abc"
      { name := "Ada", email := "ada@ex.com" } rfl (by decide) (by decide)
      (by decide)).2.2.1,
   (callback_success_login_and_url_strip callbackBrowser "abc"
      { name := "Ada", email := "ada@ex.com" } rfl (by decide) (by decide)
      (by decide)).2.2.2.2.2⟩

/-- `login` with a guarded payload (non-empty name and email) establishes
the full-population invariant. -/
theorem authInv_login (s : AuthState) (d : RawUser)
    (hn : d.name ≠ "") (he : d.email ≠ "") : AuthInv (login s d) := by
  have hfull := normalizeUser_fullyPopulated d hn he
  refine ⟨fun u hu => ?_, fun u hu => ?_⟩ <;>
    · simp only [login] at hu
      cases hu
      exact hfull

/-- The hydration step preserves the full-population invariant: it only
copies the stored identity into memory. -/
theorem authInv_hydrateAuth (s : AuthState) (h : AuthInv s) :
    AuthInv (hydrateAuth s) := by
  unfold hydrateAuth
  cases hst : s.storedUser with
  | none => exact h
  | some u =>
    refine ⟨fun v hv => ?_, fun v hv => ?_⟩
    · cases hv
      exact h.2 u hst
    · cases hv
      exact h.2 u hst

/-- The status probe preserves the full-population invariant in all four
outcomes. -/
theorem authInv_checkAuthStatus (s : AuthState) (r : StatusResp)
    (h : AuthInv s) : AuthInv (checkAuthStatus s r) := by
  cases r with
  | ok d =>
    simp only [checkAuthStatus]
    by_cases hg : d.name ≠ "" ∧ d.email ≠ ""
    · simp only [if_pos hg]
      have hl := authInv_login s d hg.1 hg.2
      exact ⟨hl.1, hl.2⟩
    · simp only [if_neg hg]
      exact ⟨h.1, h.2⟩
  | unauthorized =>
    exact ⟨(fun _ hu => nomatch hu), (fun _ hu => nomatch hu)⟩
  | otherHttpError st => exact ⟨h.1, h.2⟩
  | networkError => exact ⟨h.1, h.2⟩

/-- The callback exchange preserves the full-population invariant: the only
branch that writes state goes through the guarded `login`. -/
theorem authInv_checkOAuthCallback (b : Browser) (r : CallbackResp)
    (h : AuthInv b.auth) : AuthInv (checkOAuthCallback b r).auth := by
  unfold checkOAuthCallback
  cases hcode : b.url.codeParam with
  | none => exact h
  | some c =>
    by_cases hc : c = ""
    · simp only [if_pos hc]
      exact h
    · simp only [if_neg hc]
      cases r with
      | ok d =>
        by_cases hg : d.name ≠ "" ∧ d.email ≠ ""
        · simp only [if_pos hg]
          exact authInv_login b.auth d hg.1 hg.2
        · simp only [if_neg hg]
          exact h
      | httpError st => exact h
      | networkError => exact h

/-- Every event of the closed application preserves the full-population
invariant. -/
theorem authInv_authStep (b : Browser) (e : AuthEvent)
    (h : AuthInv b.auth) : AuthInv (authStep b e).auth := by
  cases e with
  | hydrateEv => exact authInv_hydrateAuth b.auth h
  | callbackEv r => exact authInv_checkOAuthCallback b r h
  | probeEv r => exact authInv_checkAuthStatus b.auth r h
  | logoutEv => exact ⟨(fun _ hu => nomatch hu), (fun _ hu => nomatch hu)⟩

/-- Claim C9 (confirmed): in every reachable state of the closed
application, the identity exposed in memory and the one persisted in the
storage slot are either absent or fully populated (all four fields
non-empty) — every write goes through the normalization with its
`name`/`email` guard — and the normalization defaults `id` to `email` and
`provider` to the literal `oauth` when the backend omits them or sends
falsy (empty) values. -/
theorem identity_integrity :
    (∀ b : Browser, Reachable b → AuthInv b.auth) ∧
    (∀ d : RawUser, d.id = none ∨ d.id = some "" →
        (normalizeUser d).id = d.email) ∧
    (∀ d : RawUser, d.provider = none ∨ d.provider = some "" →
        (normalizeUser d).provider = "oauth") := by
  refine ⟨?_, ?_, ?_⟩
  · intro b hb
    induction hb with
    | init u n =>
      exact ⟨(fun _ hv => nomatch hv), (fun _ hv => nomatch hv)⟩
    | step e hb ih =>
      exact authInv_authStep _ e ih
  · intro d hd
    rcases hd with h | h <;> simp [normalizeUser, jsOrStr, h]
  · intro d hd
    rcases hd with h | h <;> simp [normalizeUser, jsOrStr, h]

/-- Claim C9, witness: at the concrete reachable state produced by one
successful status probe, the invariant holds, and the defaults apply for a
payload without `id` and `provider`. -/
theorem identity_integrity_witness :
    AuthInv
      (authStep
        { auth := authInit
        , url := { pathname := "/", codeParam := none, stateParam := none
                 , otherParams := [] }
        , reloads := 0 }
        (.probeEv (.ok { name := "Ada", email := "ada@ex.com" }))).auth ∧
    (normalizeUser { name := "Ada", email := "ada@ex.com" }).id = "ada@ex.com" ∧
    (normalizeUser { name := "Ada", email := "ada@ex.com" }).provider = "oauth" :=
  ⟨identity_integrity.1 _
      (Reachable.step (.probeEv (.ok { name := "Ada", email := "ada@ex.com" }))
        (Reachable.init _ 0)),
   identity_integrity.2.1 _ (Or.inl rfl),
   identity_integrity.2.2 _ (Or.inl rfl)⟩

/-- Claim C10 (confirmed): whenever the generation submission fails (the
awaited call throws: non-2xx or network failure), the controller state after
the catch/finally differs from the prior state only in the error message and
the loading flag — the entered query and domain, the success flag and any
previously cached result are exactly as before the failed call. -/
theorem submit_failure_atomicity (s : HomeState) (req : GenRequest)
    (nowMs : Nat) (nowIso : String) (resp : GenResponse) (msg : String)
    (hfail : generateDocument req nowMs nowIso resp = Except.error msg) :
    (handleDownload s req nowMs nowIso resp).state.sqlQuery = s.sqlQuery ∧
    (handleDownload s req nowMs nowIso resp).state.businessDomain
      = s.businessDomain ∧
    (handleDownload s req nowMs nowIso resp).state.showSuccess
      = s.showSuccess ∧
    (handleDownload s req nowMs nowIso resp).state.lastDocument
      = s.lastDocument ∧
    (handleDownload s req nowMs nowIso resp).state.isLoading = false ∧
    (handleDownload s req nowMs nowIso resp).state.error
      = some (strOr msg "An error occurred while generating the document") := by
  simp [handleDownload, hfail]

/-- Claim C10, witness: a concrete failed submit from a state holding a
cached document leaves the query, domain, success flag and cached document
untouched. -/
theorem submit_failure_atomicity_witness :
    (handleDownload
        { sqlQuery := "SELECT 1", businessDomain := "retail", isLoading := false
        , showSuccess := true, error := none
        , lastDocument := some
            { sqlQuery := "SELECT 1", businessDomain := "retail"
            , documentId := "DOC-1", fileName := "r.pdf", fileSize := none
            , generatedAt := isoSample, downloadUrl := none, message := "ok" } }
        (GenRequest.mk "SELECT 2" "finance") 7 isoSample
        (.httpError 503 none)).state.lastDocument
      = some
          { sqlQuery := "SELECT 1", businessDomain := "retail"
          , documentId := "DOC-1", fileName := "r.pdf", fileSize := none
          , generatedAt := isoSample, downloadUrl := none, message := "ok" } :=
  (submit_failure_atomicity _ (GenRequest.mk "SELECT 2" "finance") 7 isoSample
      (.httpError 503 none) "Server error: 503" rfl).2.2.2.1

end AnalyzeAI
